import Mathlib

/-!
Shallow embedding of the CN-EL SD-WAN hospital network simulator
(`src/simulator/frontend/src/simulation/NetworkSimulation.js` and the
control handler in the React `App` component).

JavaScript numbers are modelled as exact rationals `ℚ`; the two places
where genuinely real-valued functions appear (`Math.log2` in the entropy
computation, `Math.sqrt` in the z-score anomaly detector) are modelled
over `ℝ` with `Real.logb`/`Real.sqrt`.  Wall-clock reads (`Date.now()`)
and `Math.random()` samples are passed in as explicit parameters.
-/

namespace CNEL

/-- The `TrafficType` enumeration (`ATTACK` is serialized as `"DDOS"`). -/
inductive TrafficType
  | VOIP | DICOM | EMR | GUEST | ATTACK | IOT | DNS | HTTP | NTP
  deriving DecidableEq, Repr

/-- The `TrafficPriority` enumeration. -/
inductive TrafficPriority
  | GOLD | SILVER | BRONZE
  deriving DecidableEq, Repr

/-- `TRAFFIC_PRIORITY_MAP` from the source.  The JS lookup falls back to
BRONZE for unknown keys; the enumeration is closed so the table is total. -/
def trafficPriorityMap : TrafficType → TrafficPriority
  | .VOIP => .GOLD
  | .EMR => .GOLD
  | .DICOM => .SILVER
  | .IOT => .SILVER
  | .GUEST => .BRONZE
  | .ATTACK => .BRONZE
  | .DNS => .GOLD
  | .HTTP => .BRONZE
  | .NTP => .GOLD

/-- `PRIORITY_WEIGHTS` from the source. -/
def priorityWeight : TrafficPriority → ℚ
  | .GOLD => 10
  | .SILVER => 3
  | .BRONZE => 1

/-- A traffic flow `{ type, amount }` offered to a link for one tick. -/
structure Flow where
  type : TrafficType
  amount : ℚ
  deriving DecidableEq, Repr

/-- `getWeight` from `Link.update`. -/
def Flow.getWeight (t : Flow) : ℚ := priorityWeight (trafficPriorityMap t.type)

/-- The mutable per-link state (class `Link` in the source).
`entropy` is the one real-valued field (it stores values of `Math.log2`
expressions). -/
structure Link where
  source : String
  target : String
  capacity : ℚ
  baseLatency : ℚ
  currentLoad : ℚ
  packetLoss : ℚ
  jitter : ℚ
  activeTraffic : List Flow
  goldDrops : ℕ
  silverDrops : ℕ
  bronzeDrops : ℕ
  goldServed : ℕ
  silverServed : ℕ
  bronzeServed : ℕ
  bufferOccupancy : ℚ
  chokeActive : Bool
  ewmaAlpha : ℚ
  ewmaRtt : ℚ
  currentRtt : ℚ
  bucketCapacity : ℚ
  tokens : ℚ
  lastUpdateTime : ℚ
  entropy : ℝ
  loadHistory : List ℚ

/-- The `Link` constructor.  `now` stands for the `Date.now() / 1000`
read performed at construction time. -/
def Link.init (source target : String) (capacityMbps baseLatencyMs now : ℚ) : Link where
  source := source
  target := target
  capacity := capacityMbps
  baseLatency := baseLatencyMs
  currentLoad := 0
  packetLoss := 0
  jitter := 0
  activeTraffic := []
  goldDrops := 0
  silverDrops := 0
  bronzeDrops := 0
  goldServed := 0
  silverServed := 0
  bronzeServed := 0
  bufferOccupancy := 0
  chokeActive := false
  ewmaAlpha := 0.125
  ewmaRtt := baseLatencyMs
  currentRtt := baseLatencyMs
  bucketCapacity := capacityMbps * 0.5
  tokens := capacityMbps * 0.5
  lastUpdateTime := now
  entropy := 1
  loadHistory := []

/-- The loop state of the per-flow admission loop in `Link.update`:
the six `this.*` counters it mutates plus the two local variables
`remainingCapacity` and `servedLoad`. -/
structure AdmSt where
  goldDrops : ℕ
  silverDrops : ℕ
  bronzeDrops : ℕ
  goldServed : ℕ
  silverServed : ℕ
  bronzeServed : ℕ
  remainingCapacity : ℚ
  servedLoad : ℚ
  deriving DecidableEq, Repr

/-- Initial admission-loop state: the link's current counters,
`remainingCapacity = capacity·dt`, `servedLoad = 0`. -/
def AdmSt.ofLink (l : Link) (remCap : ℚ) : AdmSt where
  goldDrops := l.goldDrops
  silverDrops := l.silverDrops
  bronzeDrops := l.bronzeDrops
  goldServed := l.goldServed
  silverServed := l.silverServed
  bronzeServed := l.bronzeServed
  remainingCapacity := remCap
  servedLoad := 0

/-- One iteration of the `for (const traffic of sortedTraffic)` loop in
`Link.update`: choke drop of non-GOLD, admission when the time-sliced
demand fits, GOLD preemption against the (cumulative) bronze-served
counter, otherwise a drop under the flow's own priority. -/
def processFlow (dt : ℚ) (choke : Bool) (st : AdmSt) (traffic : Flow) : AdmSt :=
  let priority := trafficPriorityMap traffic.type
  let amount := traffic.amount * dt
  if choke = true ∧ priority ≠ .GOLD then
    if priority = .SILVER then { st with silverDrops := st.silverDrops + 1 }
    else { st with bronzeDrops := st.bronzeDrops + 1 }
  else if amount ≤ st.remainingCapacity then
    let st := { st with remainingCapacity := st.remainingCapacity - amount,
                        servedLoad := st.servedLoad + traffic.amount }
    if priority = .GOLD then { st with goldServed := st.goldServed + 1 }
    else if priority = .SILVER then { st with silverServed := st.silverServed + 1 }
    else { st with bronzeServed := st.bronzeServed + 1 }
  else
    if priority = .GOLD ∧ 0 < st.bronzeServed then
      { st with bronzeDrops := st.bronzeDrops + 1,
                bronzeServed := st.bronzeServed - 1,
                remainingCapacity := st.remainingCapacity + amount,
                servedLoad := st.servedLoad + traffic.amount,
                goldServed := st.goldServed + 1 }
    else
      if priority = .GOLD then { st with goldDrops := st.goldDrops + 1 }
      else if priority = .SILVER then { st with silverDrops := st.silverDrops + 1 }
      else { st with bronzeDrops := st.bronzeDrops + 1 }

/-- `[...this.activeTraffic].sort((a, b) => getWeight(b) - getWeight(a))`:
a stable sort by descending priority weight. -/
def sortTraffic (flows : List Flow) : List Flow :=
  flows.insertionSort (fun a b => b.getWeight ≤ a.getWeight)

/-- `totalLoad = activeTraffic.reduce((sum, t) => sum + t.amount, 0)`. -/
def totalLoadOf (flows : List Flow) : ℚ := (flows.map Flow.amount).sum

/-- The buffer occupancy computed in `Link.update`:
`capacity > 0 ? Math.min(1, totalLoad / capacity) : 0`. -/
def Link.bufferOccCalc (l : Link) : ℚ :=
  if 0 < l.capacity then min 1 (totalLoadOf l.activeTraffic / l.capacity) else 0

/-- `this.chokeActive = this.bufferOccupancy > 0.7`. -/
def Link.chokeCalc (l : Link) : Bool := decide (0.7 < l.bufferOccCalc)

/-- The whole admission loop of `Link.update` for time slice `dt`. -/
def Link.admission (l : Link) (dt : ℚ) : AdmSt :=
  (sortTraffic l.activeTraffic).foldl (processFlow dt l.chokeCalc)
    (AdmSt.ofLink l (l.capacity * dt))

/-- `loadHistory.push(x)` followed by `if (length > 50) shift()`. -/
def pushHistory (h : List ℚ) (x : ℚ) : List ℚ :=
  let h := h ++ [x]
  if 50 < h.length then h.drop 1 else h

/-- The insertion-ordered list of traffic types present in the offered
flow list (the keys of the JS `typeVol` object). -/
def presentTypes (flows : List Flow) : List TrafficType :=
  flows.foldl (fun acc t => if t.type ∈ acc then acc else acc ++ [t.type]) []

/-- The per-type offered volume (the values of the JS `typeVol` object). -/
def typeVol (flows : List Flow) (ty : TrafficType) : ℚ :=
  ((flows.filter (fun t => t.type = ty)).map Flow.amount).sum

/-- The entropy block of `Link.update` (step 4 in the source): Shannon
entropy of the per-type volume shares, normalized by `log2(numTypes)`
and clamped at 1 when several types are present; `0` for a single type
unless the buffer occupancy is below `0.1`; `1` at zero load. -/
noncomputable def entropyCalc (flows : List Flow) (totalLoad bufferOcc : ℚ) : ℝ :=
  if 0 < totalLoad then
    let types := presentTypes flows
    let entropySum : ℝ :=
      (types.map (fun ty =>
        let p : ℚ := typeVol flows ty / totalLoad
        if 0 < p then -((p : ℝ) * Real.logb 2 (p : ℝ)) else 0)).sum
    if 1 < types.length then
      min 1 (entropySum / Real.logb 2 (types.length : ℝ))
    else
      if bufferOcc < 0.1 then 1 else 0
  else 1

/-- `Link.update()`.  `now` is the `Date.now() / 1000` sample and `r`
the `Math.random()` sample used for jitter.  Returns the post-call link
state; when the elapsed `dt` is not positive the method returns without
touching any field. -/
noncomputable def Link.update (l : Link) (now r : ℚ) : Link :=
  let dt := now - l.lastUpdateTime
  if dt ≤ 0 then l else
  let tokens' := min l.bucketCapacity (l.tokens + l.capacity * dt)
  let totalLoad := totalLoadOf l.activeTraffic
  let bufferOccupancy' := l.bufferOccCalc
  let choke := l.chokeCalc
  let adm := l.admission dt
  let servedLoad := adm.servedLoad
  let hist := pushHistory l.loadHistory totalLoad
  let packetLoss0 := if 0 < totalLoad then 1 - servedLoad / totalLoad else 0
  let packetLoss' := if packetLoss0 < 0 then 0 else packetLoss0
  let utilization := if 0 < l.capacity then servedLoad / l.capacity else 0
  let instantRtt0 :=
    if 0.6 < utilization then l.baseLatency * (1 + (utilization - 0.6) * 15)
    else l.baseLatency
  let jitter' := if utilization < 0.8 then r * 2 else 5 + r * 20
  let instantRtt := instantRtt0 + jitter'
  { l with
    lastUpdateTime := now
    tokens := tokens'
    bufferOccupancy := bufferOccupancy'
    chokeActive := choke
    goldDrops := adm.goldDrops
    silverDrops := adm.silverDrops
    bronzeDrops := adm.bronzeDrops
    goldServed := adm.goldServed
    silverServed := adm.silverServed
    bronzeServed := adm.bronzeServed
    currentLoad := totalLoad
    loadHistory := hist
    packetLoss := packetLoss'
    jitter := jitter'
    ewmaRtt := (1 - l.ewmaAlpha) * l.ewmaRtt + l.ewmaAlpha * instantRtt
    currentRtt := instantRtt
    entropy := entropyCalc l.activeTraffic totalLoad bufferOccupancy' }

/-- Rounding to `d` decimal digits, modelling the
`parseFloat(x.toFixed(d))` pattern of `toDict`/`getState` on rationals. -/
def qRound (d : ℕ) (q : ℚ) : ℚ := ((round (q * 10 ^ d) : ℤ) : ℚ) / 10 ^ d

/-- The same rounding on the real-valued entropy field. -/
noncomputable def rRound (d : ℕ) (x : ℝ) : ℝ := ((round (x * 10 ^ d) : ℤ) : ℝ) / 10 ^ d

/-- The `qos` sub-object serialized by `Link.toDict`. -/
structure QoSDict where
  gold_drops : ℕ
  silver_drops : ℕ
  bronze_drops : ℕ
  gold_served : ℕ
  silver_served : ℕ
  bronze_served : ℕ
  buffer_occupancy : ℚ
  choke_active : Bool
  gold_loss_pct : ℚ
  bronze_loss_pct : ℚ

/-- The object serialized by `Link.toDict`. -/
structure LinkDict where
  source : String
  target : String
  capacity : ℤ
  load : ℚ
  utilization : ℚ
  latency : ℚ
  jitter : ℚ
  packet_loss : ℚ
  entropy : ℝ
  status : String
  qos : QoSDict

/-- `safeDiv` from `Link.toDict`: `b === 0 ? 0 : (a / b) * 100`. -/
def safeDiv (a b : ℚ) : ℚ := if b = 0 then 0 else a / b * 100

/-- `Link.toDict()`. -/
noncomputable def Link.toDict (l : Link) : LinkDict where
  source := l.source
  target := l.target
  capacity := round l.capacity
  load := qRound 1 l.currentLoad
  utilization := if l.capacity ≠ 0 then qRound 1 (l.currentLoad / l.capacity * 100) else 0
  latency := qRound 1 l.ewmaRtt
  jitter := qRound 1 l.jitter
  packet_loss := qRound 1 (l.packetLoss * 100)
  entropy := rRound 2 l.entropy
  status :=
    if 0.05 < l.packetLoss then "CRITICAL"
    else if l.capacity * 0.8 < l.currentLoad then "WARNING" else "NORMAL"
  qos :=
    { gold_drops := l.goldDrops
      silver_drops := l.silverDrops
      bronze_drops := l.bronzeDrops
      gold_served := l.goldServed
      silver_served := l.silverServed
      bronze_served := l.bronzeServed
      buffer_occupancy := qRound 1 (l.bufferOccupancy * 100)
      choke_active := l.chokeActive
      gold_loss_pct := qRound 1 (safeDiv l.goldDrops (l.goldServed + l.goldDrops))
      bronze_loss_pct := qRound 1 (safeDiv l.bronzeDrops (l.bronzeServed + l.bronzeDrops)) }

/-- A topology node (element of `this.nodes`). -/
structure Node where
  id : String
  label : String
  floor : ℕ
  type : String
  pos : ℚ × ℚ
  deriving DecidableEq

/-- An alert record `{ time, msg, level }`. -/
structure Alert where
  time : String
  msg : String
  level : String
  deriving DecidableEq

/-- The `NetworkSimulation` state: nodes, the insertion-ordered
`"source-target"`-keyed link map, the adjacency map, the alert log,
the run flag and the traffic mode. -/
structure NetworkSimulation where
  nodes : List Node
  links : List (String × Link)
  graph : List (String × List String)
  alerts : List Alert
  running : Bool
  trafficMode : String

/-- JS object-property assignment `m[k] = v` on a string-keyed object:
replaces the value in place when the key exists, appends otherwise. -/
def setAssoc {α : Type} (m : List (String × α)) (k : String) (v : α) :
    List (String × α) :=
  if m.any (fun p => p.1 = k) then
    m.map (fun p => if p.1 = k then (k, v) else p)
  else m ++ [(k, v)]

/-- `if (!this.graph[u]) this.graph[u] = []; this.graph[u].push(v)`. -/
def graphPush (g : List (String × List String)) (u v : String) :
    List (String × List String) :=
  let g := if g.any (fun p => p.1 = u) then g else g ++ [(u, [])]
  g.map (fun p => if p.1 = u then (p.1, p.2 ++ [v]) else p)

/-- `NetworkSimulation.addLink(u, v, cap, lat)`: registers both directed
links and both adjacency entries. -/
def NetworkSimulation.addLink (s : NetworkSimulation) (u v : String)
    (cap lat now : ℚ) : NetworkSimulation :=
  { s with
    links := setAssoc (setAssoc s.links (u ++ "-" ++ v) (Link.init u v cap lat now))
      (v ++ "-" ++ u) (Link.init v u cap lat now)
    graph := graphPush (graphPush s.graph u v) v u }

/-- `NetworkSimulation.setupNetworkFloors()`: assigns the node list and
adds the ten fixed edges.  Note that it only assigns `this.nodes` and
calls `addLink`; it never clears `this.links`, `this.graph` or
`this.alerts`. -/
def NetworkSimulation.setupNetworkFloors (s : NetworkSimulation) (now : ℚ) :
    NetworkSimulation :=
  let s := { s with nodes := [
    { id := "Server Room", label := "Main Data Center", floor := 0, type := "server", pos := (500, 500) },
    { id := "ICU-A", label := "ICU Unit A", floor := 1, type := "critical", pos := (300, 300) },
    { id := "ICU-B", label := "ICU Unit B", floor := 1, type := "critical", pos := (700, 300) },
    { id := "OT-1", label := "Operation Theater", floor := 1, type := "critical", pos := (500, 200) },
    { id := "Radiology", label := "Radiology Dept", floor := 2, type := "high_bandwidth", pos := (400, 400) },
    { id := "Lab", label := "Pathology Lab", floor := 2, type := "staff", pos := (600, 400) },
    { id := "Admin", label := "Admin Block", floor := 3, type := "staff", pos := (200, 500) },
    { id := "Wards", label := "Patient Wards", floor := 3, type := "general", pos := (500, 600) },
    { id := "Public-Wifi", label := "Guest Wi-Fi", floor := 3, type := "guest", pos := (800, 500) }] }
  let s := s.addLink "Server Room" "ICU-A" 2000 1 now
  let s := s.addLink "Server Room" "ICU-B" 2000 1 now
  let s := s.addLink "Server Room" "Radiology" 5000 2 now
  let s := s.addLink "Server Room" "Admin" 1000 3 now
  let s := s.addLink "ICU-A" "OT-1" 1000 1 now
  let s := s.addLink "Radiology" "ICU-A" 1000 2 now
  let s := s.addLink "Radiology" "Lab" 800 2 now
  let s := s.addLink "Lab" "Server Room" 600 3 now
  let s := s.addLink "Admin" "Public-Wifi" 500 5 now
  s.addLink "Admin" "Wards" 500 3 now

/-- The `NetworkSimulation` constructor. -/
def NetworkSimulation.init (now : ℚ) : NetworkSimulation :=
  NetworkSimulation.setupNetworkFloors
    { nodes := [], links := [], graph := [], alerts := [],
      running := false, trafficMode := "NORMAL" } now

/-- The `reset` arm of `handleControl` in the React `App` component:
`running = false; trafficMode = 'NORMAL'; setupNetworkFloors();` then
every link's `activeTraffic` is cleared.  (The component also clears its
own accumulated-alert React state, which is not simulation state; the
simulation's `alerts` array is never touched.) -/
def NetworkSimulation.reset (s : NetworkSimulation) (now : ℚ) : NetworkSimulation :=
  let s := { s with running := false, trafficMode := "NORMAL" }
  let s := s.setupNetworkFloors now
  { s with links := s.links.map (fun p => (p.1, { p.2 with activeTraffic := [] })) }

/-- `global_stats` in `getState`. -/
structure GlobalStats where
  total_throughput_mbps : ℚ
  avg_system_entropy : ℝ
  active_nodes : ℕ

/-- The snapshot object returned by `getState`. -/
structure Snapshot where
  nodes : List Node
  links : List LinkDict
  alerts : List Alert
  global_stats : GlobalStats
  traffic_mode : String

/-- `NetworkSimulation.getState()`. -/
noncomputable def NetworkSimulation.getState (s : NetworkSimulation) : Snapshot :=
  let totalLoad := (s.links.map (fun p => p.2.currentLoad)).sum
  let avgEntropy : ℝ :=
    if 0 < totalLoad then
      (s.links.map (fun p => p.2.entropy * (p.2.currentLoad : ℝ))).sum / (totalLoad : ℝ)
    else 1
  { nodes := s.nodes
    links := s.links.map (fun p => p.2.toDict)
    alerts := s.alerts.drop (s.alerts.length - 10)
    global_stats :=
      { total_throughput_mbps := qRound 1 totalLoad
        avg_system_entropy := rRound 2 avgEntropy
        active_nodes := s.nodes.length }
    traffic_mode := s.trafficMode }

/-- State-passing form of `getState`: the method body performs no writes
to the simulation, so the state component is the input state. -/
noncomputable def NetworkSimulation.getStateS (s : NetworkSimulation) :
    Snapshot × NetworkSimulation :=
  (s.getState, s)

/-- Mean of the load history (`avg` in the z-score block of
`NetworkSimulation.update`). -/
def histAvg (h : List ℚ) : ℚ := h.sum / h.length

/-- Population variance of the load history (`variance` in the z-score
block). -/
def histVariance (h : List ℚ) : ℚ :=
  (h.map (fun b => (b - histAvg h) ^ 2)).sum / h.length

/-- `stdDev = Math.sqrt(variance)`. -/
noncomputable def stdDevOf (h : List ℚ) : ℝ := Real.sqrt (histVariance h)

/-- `zScore = (link.currentLoad - avg) / stdDev`. -/
noncomputable def zScoreOf (l : Link) : ℝ :=
  ((l.currentLoad - histAvg l.loadHistory : ℚ) : ℝ) / stdDevOf l.loadHistory

/-- Positivity of the standard deviation reduces to positivity of the
rational variance. -/
lemma stdDev_pos_iff (h : List ℚ) : 0 < stdDevOf h ↔ 0 < histVariance h := by
  rw [stdDevOf, Real.sqrt_pos]
  exact Rat.cast_pos

instance (h : List ℚ) : Decidable (0 < stdDevOf h) :=
  decidable_of_iff _ (stdDev_pos_iff h).symm

/-- `√(9·v) = 3·√v`. -/
lemma sqrt_nine_mul (v : ℝ) : Real.sqrt (9 * v) = 3 * Real.sqrt v := by
  rw [show (9 : ℝ) = 3 ^ 2 by norm_num, Real.sqrt_mul (by positivity) v,
    Real.sqrt_sq (by norm_num : (0 : ℝ) ≤ 3)]

/-- The real-valued z-score test `zScore > 3.0` is equivalent to a
decidable rational condition. -/
lemma zScore_gt3_iff (l : Link) :
    3 < zScoreOf l ↔
      0 < histVariance l.loadHistory ∧
      0 < l.currentLoad - histAvg l.loadHistory ∧
      9 * histVariance l.loadHistory < (l.currentLoad - histAvg l.loadHistory) ^ 2 := by
  set v : ℚ := histVariance l.loadHistory with hv
  set a : ℚ := l.currentLoad - histAvg l.loadHistory with ha
  rw [zScoreOf, stdDevOf, ← hv, ← ha]
  rcases le_or_lt v 0 with hvle | hvpos
  · have hs : Real.sqrt (v : ℝ) = 0 := Real.sqrt_eq_zero'.mpr (by exact_mod_cast hvle)
    rw [hs, div_zero]
    constructor
    · intro h3
      norm_num at h3
    · rintro ⟨hcon, -, -⟩
      exact absurd hcon (not_lt.mpr hvle)
  · have hsq : (0 : ℝ) < Real.sqrt (v : ℝ) :=
      Real.sqrt_pos.mpr (by exact_mod_cast hvpos)
    rw [lt_div_iff₀ hsq]
    constructor
    · intro h3
      have hapos : (0 : ℝ) < (a : ℝ) := lt_trans (by positivity) h3
      have h9 : Real.sqrt (9 * (v : ℝ)) < (a : ℝ) := by
        rwa [sqrt_nine_mul]
      have := (Real.sqrt_lt' hapos).mp h9
      refine ⟨hvpos, by exact_mod_cast hapos, ?_⟩
      exact_mod_cast this
    · rintro ⟨-, hapos, hsqlt⟩
      have hapos' : (0 : ℝ) < (a : ℝ) := by exact_mod_cast hapos
      have h9 : (9 : ℝ) * (v : ℝ) < (a : ℝ) ^ 2 := by exact_mod_cast hsqlt
      have := (Real.sqrt_lt' hapos').mpr h9
      rwa [sqrt_nine_mul] at this

instance (l : Link) : Decidable (3 < zScoreOf l) :=
  decidable_of_iff _ (zScore_gt3_iff l).symm

/-- The z-score anomaly block of `NetworkSimulation.update` for one
link: returns whether the `addAlert` call for a lateral-movement WARNING
is made.  Mirrors the guards of the source (`mode !== 'NORMAL'`,
`loadHistory.length > 10`, `stdDev > 0`, `zScore > 3.0 && warnAlertCount
< 2`); the alert's message text (random compromised device, formatted
z-score) is abstracted away. -/
def zscoreCheck (mode : String) (warnCount : ℕ) (l : Link) : Bool :=
  if mode ≠ "NORMAL" ∧ 10 < l.loadHistory.length then
    if 0 < stdDevOf l.loadHistory then
      if 3 < zScoreOf l ∧ warnCount < 2 then true else false
    else false
  else false

/-- The per-tick z-score sweep over all links in
`NetworkSimulation.update`: threads `warnAlertCount` (initialized to 0
each tick) and collects the links for which a WARNING alert is raised. -/
def zscorePhase (mode : String) (links : List Link) : ℕ × List Link :=
  links.foldl
    (fun acc link =>
      if zscoreCheck mode acc.1 link then (acc.1 + 1, acc.2 ++ [link]) else acc)
    (0, [])

/-! ### Simp helpers for enumeration equalities -/

@[simp] lemma gold_ne_silver : (TrafficPriority.GOLD = TrafficPriority.SILVER) = False := by
  simp

@[simp] lemma gold_ne_bronze : (TrafficPriority.GOLD = TrafficPriority.BRONZE) = False := by
  simp

@[simp] lemma silver_ne_gold : (TrafficPriority.SILVER = TrafficPriority.GOLD) = False := by
  simp

@[simp] lemma silver_ne_bronze : (TrafficPriority.SILVER = TrafficPriority.BRONZE) = False := by
  simp

@[simp] lemma bronze_ne_gold : (TrafficPriority.BRONZE = TrafficPriority.GOLD) = False := by
  simp

@[simp] lemma bronze_ne_silver : (TrafficPriority.BRONZE = TrafficPriority.SILVER) = False := by
  simp

/-- The early return of `Link.update` when `dt <= 0`. -/
lemma update_stop {l : Link} {now r : ℚ} (h : now - l.lastUpdateTime ≤ 0) :
    l.update now r = l := by
  rw [Link.update]
  simp [h]

/-- Projections of `Link.update` when time has elapsed: the six QoS
counters after the call are those produced by the admission loop. -/
lemma update_counters {l : Link} {now r : ℚ} (h : ¬ now - l.lastUpdateTime ≤ 0) :
    (l.update now r).goldServed = (l.admission (now - l.lastUpdateTime)).goldServed ∧
    (l.update now r).silverServed = (l.admission (now - l.lastUpdateTime)).silverServed ∧
    (l.update now r).bronzeServed = (l.admission (now - l.lastUpdateTime)).bronzeServed ∧
    (l.update now r).goldDrops = (l.admission (now - l.lastUpdateTime)).goldDrops ∧
    (l.update now r).silverDrops = (l.admission (now - l.lastUpdateTime)).silverDrops ∧
    (l.update now r).bronzeDrops = (l.admission (now - l.lastUpdateTime)).bronzeDrops := by
  rw [Link.update]
  simp [h]

/-- One admission-loop iteration never decreases the gold/silver served
counters, any drop counter, or the sum `bronzeServed + bronzeDrops`
(the preemption branch trades one `bronzeServed` for one `bronzeDrops`). -/
lemma processFlow_mono (dt : ℚ) (choke : Bool) (st : AdmSt) (t : Flow) :
    st.goldServed ≤ (processFlow dt choke st t).goldServed ∧
    st.silverServed ≤ (processFlow dt choke st t).silverServed ∧
    st.goldDrops ≤ (processFlow dt choke st t).goldDrops ∧
    st.silverDrops ≤ (processFlow dt choke st t).silverDrops ∧
    st.bronzeDrops ≤ (processFlow dt choke st t).bronzeDrops ∧
    st.bronzeServed + st.bronzeDrops ≤
      (processFlow dt choke st t).bronzeServed + (processFlow dt choke st t).bronzeDrops := by
  rw [processFlow]
  split_ifs with h1 h2 h3 h4 h5 h6 h7 <;>
    first
      | (simp_all; omega)
      | simp_all

/-- Fold version of `processFlow_mono` over any flow list. -/
lemma foldl_processFlow_mono (dt : ℚ) (choke : Bool) (flows : List Flow) (st : AdmSt) :
    st.goldServed ≤ (flows.foldl (processFlow dt choke) st).goldServed ∧
    st.silverServed ≤ (flows.foldl (processFlow dt choke) st).silverServed ∧
    st.goldDrops ≤ (flows.foldl (processFlow dt choke) st).goldDrops ∧
    st.silverDrops ≤ (flows.foldl (processFlow dt choke) st).silverDrops ∧
    st.bronzeDrops ≤ (flows.foldl (processFlow dt choke) st).bronzeDrops ∧
    st.bronzeServed + st.bronzeDrops ≤
      (flows.foldl (processFlow dt choke) st).bronzeServed +
        (flows.foldl (processFlow dt choke) st).bronzeDrops := by
  induction flows generalizing st with
  | nil => simp
  | cons t ts ih =>
    have hstep := processFlow_mono dt choke st t
    have hrest := ih (processFlow dt choke st t)
    simp only [List.foldl_cons]
    omega

/-- Across any single `Link.update` call, the five counters other than
`bronzeServed`, and the sum `bronzeServed + bronzeDrops`, never
decrease. -/
lemma update_counters_mono (l : Link) (now r : ℚ) :
    l.goldServed ≤ (l.update now r).goldServed ∧
    l.silverServed ≤ (l.update now r).silverServed ∧
    l.goldDrops ≤ (l.update now r).goldDrops ∧
    l.silverDrops ≤ (l.update now r).silverDrops ∧
    l.bronzeDrops ≤ (l.update now r).bronzeDrops ∧
    l.bronzeServed + l.bronzeDrops ≤
      (l.update now r).bronzeServed + (l.update now r).bronzeDrops := by
  by_cases h : now - l.lastUpdateTime ≤ 0
  · rw [update_stop h]
    omega
  · obtain ⟨e1, e2, e3, e4, e5, e6⟩ := @update_counters l now r h
    rw [e1, e2, e3, e4, e5, e6]
    have := foldl_processFlow_mono (now - l.lastUpdateTime) l.chokeCalc
      (sortTraffic l.activeTraffic) (AdmSt.ofLink l (l.capacity * (now - l.lastUpdateTime)))
    rw [Link.admission]
    simp only [AdmSt.ofLink] at this ⊢
    omega

/-! ### C10 — `Link.update` is a no-op when no time has elapsed -/

/-- C10: if `Link.update` runs when the elapsed time since
`lastUpdateTime` is `≤ 0`, the call returns immediately and the whole
link state — every field, `lastUpdateTime` included — is unchanged. -/
theorem update_nonpos_dt_noop (l : Link) (now r : ℚ)
    (h : now - l.lastUpdateTime ≤ 0) :
    l.update now r = l :=
  update_stop h

/-- Witness for C10 at a concrete link and timestamp. -/
theorem update_nonpos_dt_noop_witness :
    Link.update (Link.init "Server Room" "ICU-A" 2000 1 5) 5 0 =
      Link.init "Server Room" "ICU-A" 2000 1 5 :=
  update_nonpos_dt_noop _ _ _ (by norm_num [Link.init])

/-! ### Two-tick preemption scenario

A link of capacity 100 serves one BRONZE flow during the first tick
(`bronzeServed` becomes 1).  On the second tick the offered list holds a
single GOLD flow whose demand (5000) exceeds the slice capacity: the
code preempts against the cumulative `bronzeServed` counter even though
no BRONZE flow was served during that tick. -/

def cexLink1 : Link :=
  { Link.init "ICU-A" "OT-1" 100 1 0 with activeTraffic := [⟨.GUEST, 10⟩] }

noncomputable def cexLink1' : Link := cexLink1.update 1 0

noncomputable def cexLink2 : Link :=
  { cexLink1' with activeTraffic := [⟨.VOIP, 5000⟩] }

noncomputable def cexLink2' : Link := cexLink2.update 2 0

/-- Evaluation of the two-tick preemption scenario. -/
lemma cex_scenario_eval :
    cexLink2.bronzeServed = 1 ∧ cexLink2.goldServed = 0 ∧
    cexLink2.goldDrops = 0 ∧ cexLink2.bronzeDrops = 0 ∧
    cexLink2.lastUpdateTime = 1 ∧ cexLink2.capacity = 100 ∧
    cexLink2'.goldServed = 1 ∧ cexLink2'.goldDrops = 0 ∧
    cexLink2'.bronzeServed = 0 ∧ cexLink2'.bronzeDrops = 1 := by
  have h1 : cexLink1' = cexLink1.update 1 0 := rfl
  refine ⟨?_, ?_, ?_, ?_, ?_, ?_, ?_, ?_, ?_, ?_⟩ <;>
    norm_num [cexLink2', cexLink2, h1, cexLink1, Link.update, Link.admission,
      Link.chokeCalc, Link.bufferOccCalc, totalLoadOf, sortTraffic, processFlow,
      AdmSt.ofLink, Link.init, pushHistory, List.insertionSort, List.orderedInsert,
      trafficPriorityMap, Flow.getWeight, priorityWeight]

/-! ### C2 — monotonicity of the six per-priority counters -/

/-- C2 counterexample: a `Link.update` call across which `bronzeServed`
strictly decreases (GOLD preemption trades away a previously earned
bronze-served credit), refuting that all six counters are monotonically
non-decreasing across every call. -/
theorem bronzeServed_decreases_on_preemption :
    cexLink2.bronzeServed = 1 ∧ (cexLink2.update 2 0).bronzeServed = 0 := by
  obtain ⟨h1, -, -, -, -, -, -, -, h9, -⟩ := cex_scenario_eval
  exact ⟨h1, h9⟩

/-- C2 (amended): across every `Link.update` call the counters
`goldServed`, `silverServed`, `goldDrops`, `silverDrops`, `bronzeDrops`
are monotonically non-decreasing, and so is the sum
`bronzeServed + bronzeDrops`; `bronzeServed` alone may decrease, by
exactly one per GOLD preemption. -/
theorem counters_monotone_except_bronzeServed (l : Link) (now r : ℚ) :
    l.goldServed ≤ (l.update now r).goldServed ∧
    l.silverServed ≤ (l.update now r).silverServed ∧
    l.goldDrops ≤ (l.update now r).goldDrops ∧
    l.silverDrops ≤ (l.update now r).silverDrops ∧
    l.bronzeDrops ≤ (l.update now r).bronzeDrops ∧
    l.bronzeServed + l.bronzeDrops ≤
      (l.update now r).bronzeServed + (l.update now r).bronzeDrops :=
  update_counters_mono l now r

/-! ### C3 — per-priority served + dropped sums are non-decreasing -/

/-- A run of the simulation as seen by one link: each step installs the
tick's offered flows (as the traffic generator does) and then calls
`Link.update` with that step's timestamp and jitter sample. -/
noncomputable def runSteps (l : Link) (steps : List (ℚ × ℚ × List Flow)) : Link :=
  steps.foldl (fun acc s => ({ acc with activeTraffic := s.2.2 } : Link).update s.1 s.2.1) l

/-- C3: over every sequence of `Link.update` calls (arbitrary offered
flows, timestamps and jitter samples), each per-priority sum
`served + dropped` is monotonically non-decreasing; in particular
preemption leaves the bronze sum unchanged. -/
theorem priority_sums_monotone_over_run (l : Link) (steps : List (ℚ × ℚ × List Flow)) :
    l.goldServed + l.goldDrops ≤
      (runSteps l steps).goldServed + (runSteps l steps).goldDrops ∧
    l.silverServed + l.silverDrops ≤
      (runSteps l steps).silverServed + (runSteps l steps).silverDrops ∧
    l.bronzeServed + l.bronzeDrops ≤
      (runSteps l steps).bronzeServed + (runSteps l steps).bronzeDrops := by
  induction steps generalizing l with
  | nil => simp [runSteps]
  | cons s ss ih =>
    have h1 := update_counters_mono { l with activeTraffic := s.2.2 } s.1 s.2.1
    have h2 := ih (({ l with activeTraffic := s.2.2 } : Link).update s.1 s.2.1)
    simp only [runSteps, List.foldl_cons] at h2 ⊢
    simp only at h1
    omega

/-! ### C1 — GOLD preemption in the does-not-fit case -/

/-- C1 counterexample: in the second tick of the scenario the offered
list holds a single GOLD flow and no BRONZE flow at all, so no BRONZE
flow "has been served this tick"; the demand does not fit, yet the GOLD
flow is admitted by preemption (gold-served incremented, gold-drops
untouched, the cumulative bronze-served counter decremented and
bronze-drops incremented), because the code consults the cumulative
`bronzeServed` counter, not this tick's services. -/
theorem preemption_without_bronze_served_this_tick :
    cexLink2.activeTraffic = [⟨TrafficType.VOIP, 5000⟩] ∧
    (∀ t ∈ cexLink2.activeTraffic, trafficPriorityMap t.type = TrafficPriority.GOLD) ∧
    ¬ ((5000 : ℚ) * (2 - cexLink2.lastUpdateTime) ≤
        cexLink2.capacity * (2 - cexLink2.lastUpdateTime)) ∧
    cexLink2.goldServed = 0 ∧ cexLink2.bronzeServed = 1 ∧ cexLink2.bronzeDrops = 0 ∧
    (cexLink2.update 2 0).goldServed = 1 ∧
    (cexLink2.update 2 0).goldDrops = 0 ∧
    (cexLink2.update 2 0).bronzeServed = 0 ∧
    (cexLink2.update 2 0).bronzeDrops = 1 := by
  obtain ⟨h1, h2, h3, h4, h5, h6, h7, h8, h9, h10⟩ := cex_scenario_eval
  refine ⟨rfl, ?_, ?_, h2, h1, h4, h7, h8, h9, h10⟩
  · intro t ht
    rw [show cexLink2.activeTraffic = [(⟨TrafficType.VOIP, 5000⟩ : Flow)] from rfl] at ht
    simp only [List.mem_singleton] at ht
    rw [ht]
    rfl
  · rw [h5, h6]
    norm_num

/-- C1 (amended): in the does-not-fit case of the per-flow admission
step, a GOLD flow is admitted by preemption exactly when the cumulative
`bronzeServed` counter is positive at the moment the flow is processed
(bronze services from earlier ticks count); the preemption decrements
the bronze-served counter, increments the bronze-drop counter, adds the
demand back to `remainingCapacity`, adds the flow's rate to
`servedLoad`, and increments gold-served.  In every other does-not-fit
case the flow is dropped under its own priority's drop counter. -/
theorem gold_preemption_cumulative_counter_spec (dt : ℚ) (choke : Bool)
    (st : AdmSt) (t : Flow)
    (hfit : ¬ t.amount * dt ≤ st.remainingCapacity) :
    (trafficPriorityMap t.type = .GOLD →
      processFlow dt choke st t =
        if 0 < st.bronzeServed then
          { st with bronzeDrops := st.bronzeDrops + 1,
                    bronzeServed := st.bronzeServed - 1,
                    remainingCapacity := st.remainingCapacity + t.amount * dt,
                    servedLoad := st.servedLoad + t.amount,
                    goldServed := st.goldServed + 1 }
        else { st with goldDrops := st.goldDrops + 1 }) ∧
    (choke = false → trafficPriorityMap t.type = .SILVER →
      processFlow dt choke st t = { st with silverDrops := st.silverDrops + 1 }) ∧
    (choke = false → trafficPriorityMap t.type = .BRONZE →
      processFlow dt choke st t = { st with bronzeDrops := st.bronzeDrops + 1 }) := by
  refine ⟨?_, ?_, ?_⟩
  · intro hg
    rw [processFlow]
    by_cases hb : 0 < st.bronzeServed <;> simp [hg, hfit, hb]
  · intro hc hs
    rw [processFlow]
    simp [hc, hs, hfit]
  · intro hc hb
    rw [processFlow]
    simp [hc, hb, hfit]

/-- Concrete admission state exercising the amended C1 statement. -/
def wSt : AdmSt :=
  { goldDrops := 0, silverDrops := 0, bronzeDrops := 0, goldServed := 0,
    silverServed := 0, bronzeServed := 1, remainingCapacity := 100, servedLoad := 0 }

/-- Witness for the amended C1 at a concrete GOLD flow whose demand
5000 does not fit the remaining capacity 100 while `bronzeServed = 1`. -/
theorem gold_preemption_cumulative_counter_spec_witness :
    (trafficPriorityMap (Flow.mk .VOIP 5000).type = .GOLD →
      processFlow 1 false wSt ⟨.VOIP, 5000⟩ =
        if 0 < wSt.bronzeServed then
          { wSt with bronzeDrops := wSt.bronzeDrops + 1,
                     bronzeServed := wSt.bronzeServed - 1,
                     remainingCapacity := wSt.remainingCapacity + (Flow.mk .VOIP 5000).amount * 1,
                     servedLoad := wSt.servedLoad + (Flow.mk .VOIP 5000).amount,
                     goldServed := wSt.goldServed + 1 }
        else { wSt with goldDrops := wSt.goldDrops + 1 }) ∧
    (false = false → trafficPriorityMap (Flow.mk .VOIP 5000).type = .SILVER →
      processFlow 1 false wSt ⟨.VOIP, 5000⟩ =
        { wSt with silverDrops := wSt.silverDrops + 1 }) ∧
    (false = false → trafficPriorityMap (Flow.mk .VOIP 5000).type = .BRONZE →
      processFlow 1 false wSt ⟨.VOIP, 5000⟩ =
        { wSt with bronzeDrops := wSt.bronzeDrops + 1 }) :=
  gold_preemption_cumulative_counter_spec 1 false wSt ⟨.VOIP, 5000⟩ (by norm_num [wSt])

/-! ### C4 — choke suppresses every non-GOLD flow -/

/-- Number of offered flows of a given priority. -/
def countPrio (flows : List Flow) (p : TrafficPriority) : ℕ :=
  (flows.filter (fun t => trafficPriorityMap t.type = p)).length

/-- Sorting is a permutation, so per-priority flow counts are
unchanged. -/
lemma countPrio_sortTraffic (flows : List Flow) (p : TrafficPriority) :
    countPrio (sortTraffic flows) p = countPrio flows p := by
  unfold countPrio sortTraffic
  exact ((List.perm_insertionSort _ flows).filter _).length_eq

/-- Under an active choke, one loop iteration serves no SILVER or
BRONZE flow, drops every SILVER flow under `silverDrops` and every
BRONZE flow under `bronzeDrops` (GOLD preemptions may add further
bronze drops). -/
lemma processFlow_choke_step (dt : ℚ) (st : AdmSt) (t : Flow) :
    (processFlow dt true st t).silverServed = st.silverServed ∧
    (processFlow dt true st t).bronzeServed ≤ st.bronzeServed ∧
    (processFlow dt true st t).silverDrops =
      st.silverDrops + (if trafficPriorityMap t.type = .SILVER then 1 else 0) ∧
    st.bronzeDrops + (if trafficPriorityMap t.type = .BRONZE then 1 else 0) ≤
      (processFlow dt true st t).bronzeDrops := by
  rw [processFlow]
  rcases hp : trafficPriorityMap t.type <;>
    simp only [hp] <;>
    split_ifs <;>
    first
      | (simp_all; omega)
      | simp_all

/-- Fold version of `processFlow_choke_step`. -/
lemma foldl_choke_counts (dt : ℚ) (flows : List Flow) (st : AdmSt) :
    (flows.foldl (processFlow dt true) st).silverServed = st.silverServed ∧
    (flows.foldl (processFlow dt true) st).bronzeServed ≤ st.bronzeServed ∧
    (flows.foldl (processFlow dt true) st).silverDrops =
      st.silverDrops + countPrio flows .SILVER ∧
    st.bronzeDrops + countPrio flows .BRONZE ≤
      (flows.foldl (processFlow dt true) st).bronzeDrops := by
  induction flows generalizing st with
  | nil => simp [countPrio]
  | cons t ts ih =>
    have hstep := processFlow_choke_step dt st t
    have hrest := ih (processFlow dt true st t)
    simp only [List.foldl_cons, countPrio, List.filter_cons] at hrest ⊢
    by_cases hs : trafficPriorityMap t.type = .SILVER
    · simp only [hs] at hstep ⊢
      simp at hstep ⊢
      omega
    · by_cases hb : trafficPriorityMap t.type = .BRONZE
      · simp only [hb] at hstep ⊢
        simp at hstep ⊢
        omega
      · simp [hs, hb] at hstep ⊢
        omega

/-- A GOLD flow is processed identically whether or not the choke is
active: the choke branch never touches GOLD flows. -/
lemma processFlow_gold_choke_irrelevant (dt : ℚ) (choke : Bool) (st : AdmSt)
    (t : Flow) (h : trafficPriorityMap t.type = .GOLD) :
    processFlow dt choke st t = processFlow dt false st t := by
  rw [processFlow, processFlow]
  simp [h]

/-- C4: in an update where the computed buffer occupancy exceeds 0.7
(choke active), no SILVER or BRONZE flow is admitted regardless of
remaining capacity — every SILVER flow increments `silverDrops`, every
BRONZE flow increments `bronzeDrops` — and the choke branch itself never
drops a GOLD flow (GOLD flows are processed exactly as without choke). -/
theorem choke_drops_all_non_gold (l : Link) (now r : ℚ)
    (hdt : ¬ now - l.lastUpdateTime ≤ 0)
    (hocc : 0.7 < l.bufferOccCalc) :
    (l.update now r).chokeActive = true ∧
    (l.update now r).silverServed = l.silverServed ∧
    (l.update now r).bronzeServed ≤ l.bronzeServed ∧
    (l.update now r).silverDrops = l.silverDrops + countPrio l.activeTraffic .SILVER ∧
    l.bronzeDrops + countPrio l.activeTraffic .BRONZE ≤ (l.update now r).bronzeDrops ∧
    (∀ st t, trafficPriorityMap t.type = .GOLD →
      processFlow (now - l.lastUpdateTime) true st t =
        processFlow (now - l.lastUpdateTime) false st t) := by
  have hck : l.chokeCalc = true := by
    simp [Link.chokeCalc, hocc]
  have hchoke : (l.update now r).chokeActive = true := by
    rw [Link.update]
    simp [hdt, hck]
  obtain ⟨-, e2, e3, -, e5, e6⟩ := @update_counters l now r hdt
  have hfold := foldl_choke_counts (now - l.lastUpdateTime)
    (sortTraffic l.activeTraffic) (AdmSt.ofLink l (l.capacity * (now - l.lastUpdateTime)))
  rw [Link.admission, hck] at e2 e3 e5 e6
  simp only [AdmSt.ofLink] at hfold e2 e3 e5 e6
  refine ⟨hchoke, ?_, ?_, ?_, ?_, ?_⟩
  · rw [e2]
    rw [countPrio_sortTraffic] at hfold
    omega
  · rw [e3]
    rw [countPrio_sortTraffic] at hfold
    omega
  · rw [e5]
    rw [countPrio_sortTraffic l.activeTraffic TrafficPriority.SILVER] at hfold
    omega
  · rw [e6]
    rw [countPrio_sortTraffic l.activeTraffic TrafficPriority.BRONZE] at hfold
    omega
  · intro st t h
    exact processFlow_gold_choke_irrelevant _ true st t h

/-- Concrete choked link: capacity 100 offered a SILVER flow (40) and a
BRONZE flow (41), occupancy 0.81 > 0.7. -/
def wChoke : Link :=
  { Link.init "Radiology" "Lab" 100 2 0 with
    activeTraffic := [⟨.DICOM, 40⟩, ⟨.GUEST, 41⟩] }

/-- Witness for C4 on `wChoke`. -/
theorem choke_drops_all_non_gold_witness :
    (wChoke.update 1 0).chokeActive = true ∧
    (wChoke.update 1 0).silverServed = wChoke.silverServed ∧
    (wChoke.update 1 0).bronzeServed ≤ wChoke.bronzeServed ∧
    (wChoke.update 1 0).silverDrops =
      wChoke.silverDrops + countPrio wChoke.activeTraffic .SILVER ∧
    wChoke.bronzeDrops + countPrio wChoke.activeTraffic .BRONZE ≤
      (wChoke.update 1 0).bronzeDrops ∧
    (∀ st t, trafficPriorityMap t.type = .GOLD →
      processFlow (1 - wChoke.lastUpdateTime) true st t =
        processFlow (1 - wChoke.lastUpdateTime) false st t) :=
  choke_drops_all_non_gold wChoke 1 0
    (by norm_num [wChoke, Link.init])
    (by norm_num [wChoke, Link.init, Link.bufferOccCalc, totalLoadOf])

/-! ### C8 — packet loss formula and serialized status -/

@[simp] lemma warning_eq_critical_false : (("WARNING" : String) = "CRITICAL") = False :=
  eq_false (by decide)

@[simp] lemma normal_eq_critical_false : (("NORMAL" : String) = "CRITICAL") = False :=
  eq_false (by decide)

@[simp] lemma normal_eq_warning_false : (("NORMAL" : String) = "WARNING") = False :=
  eq_false (by decide)

@[simp] lemma critical_eq_warning_false : (("CRITICAL" : String) = "WARNING") = False :=
  eq_false (by decide)

@[simp] lemma critical_eq_normal_false : (("CRITICAL" : String) = "NORMAL") = False :=
  eq_false (by decide)

@[simp] lemma warning_eq_normal_false : (("WARNING" : String) = "NORMAL") = False :=
  eq_false (by decide)

/-- C8: after an effective `Link.update`, `packetLoss` is `0` at zero
offered load and `max(0, 1 − servedLoad/totalOfferedLoad)` otherwise,
and the serialized status is CRITICAL exactly when `packetLoss > 5%`,
else WARNING exactly when `currentLoad > 80%` of capacity, else
NORMAL. -/
theorem packetLoss_and_status_spec (l : Link) (now r : ℚ)
    (hdt : ¬ now - l.lastUpdateTime ≤ 0) :
    (totalLoadOf l.activeTraffic = 0 → (l.update now r).packetLoss = 0) ∧
    (0 < totalLoadOf l.activeTraffic →
      (l.update now r).packetLoss =
        max 0 (1 - (l.admission (now - l.lastUpdateTime)).servedLoad /
          totalLoadOf l.activeTraffic)) ∧
    ((l.update now r).toDict.status = "CRITICAL" ↔
      0.05 < (l.update now r).packetLoss) ∧
    ((l.update now r).toDict.status = "WARNING" ↔
      ¬ 0.05 < (l.update now r).packetLoss ∧
      (l.update now r).capacity * 0.8 < (l.update now r).currentLoad) ∧
    ((l.update now r).toDict.status = "NORMAL" ↔
      ¬ 0.05 < (l.update now r).packetLoss ∧
      ¬ (l.update now r).capacity * 0.8 < (l.update now r).currentLoad) := by
  have hpl : (l.update now r).packetLoss =
      if (if 0 < totalLoadOf l.activeTraffic
          then 1 - (l.admission (now - l.lastUpdateTime)).servedLoad /
            totalLoadOf l.activeTraffic
          else 0) < 0
      then 0
      else (if 0 < totalLoadOf l.activeTraffic
            then 1 - (l.admission (now - l.lastUpdateTime)).servedLoad /
              totalLoadOf l.activeTraffic
            else 0) := by
    rw [Link.update]
    simp [hdt]
  have hst : (l.update now r).toDict.status =
      if 0.05 < (l.update now r).packetLoss then "CRITICAL"
      else if (l.update now r).capacity * 0.8 < (l.update now r).currentLoad
        then "WARNING" else "NORMAL" := by
    rw [Link.toDict]
  refine ⟨?_, ?_, ?_, ?_, ?_⟩
  · intro h0
    rw [hpl, h0]
    norm_num
  · intro hpos
    rw [hpl, if_pos hpos]
    rcases lt_or_le (1 - (l.admission (now - l.lastUpdateTime)).servedLoad /
        totalLoadOf l.activeTraffic) 0 with hneg | hge
    · rw [if_pos hneg, eq_comm, max_eq_left_iff]
      exact le_of_lt hneg
    · rw [if_neg (not_lt.mpr hge), eq_comm, max_eq_right_iff]
      exact hge
  · rw [hst]
    by_cases h1 : (0.05 : ℚ) < (l.update now r).packetLoss
    · simp [h1]
    · by_cases h2 : (l.update now r).capacity * 0.8 < (l.update now r).currentLoad <;>
        simp [h1, h2]
  · rw [hst]
    by_cases h1 : (0.05 : ℚ) < (l.update now r).packetLoss
    · simp [h1]
    · by_cases h2 : (l.update now r).capacity * 0.8 < (l.update now r).currentLoad <;>
        simp [h1, h2]
  · rw [hst]
    by_cases h1 : (0.05 : ℚ) < (l.update now r).packetLoss
    · simp [h1]
    · by_cases h2 : (l.update now r).capacity * 0.8 < (l.update now r).currentLoad <;>
        simp [h1, h2]

/-- Concrete overloaded link for C8: capacity 100 offered a single
BRONZE flood flow of rate 5000 (the spec's DDoS scenario); the choke
drops it entirely, so packetLoss = 1 and the status is CRITICAL. -/
def wFlood : Link :=
  { Link.init "Admin" "Public-Wifi" 100 5 0 with
    activeTraffic := [⟨.ATTACK, 5000⟩] }

/-- Witness for C8 on `wFlood`. -/
theorem packetLoss_and_status_spec_witness :
    (totalLoadOf wFlood.activeTraffic = 0 → (wFlood.update 1 0).packetLoss = 0) ∧
    (0 < totalLoadOf wFlood.activeTraffic →
      (wFlood.update 1 0).packetLoss =
        max 0 (1 - (wFlood.admission (1 - wFlood.lastUpdateTime)).servedLoad /
          totalLoadOf wFlood.activeTraffic)) ∧
    ((wFlood.update 1 0).toDict.status = "CRITICAL" ↔
      0.05 < (wFlood.update 1 0).packetLoss) ∧
    ((wFlood.update 1 0).toDict.status = "WARNING" ↔
      ¬ 0.05 < (wFlood.update 1 0).packetLoss ∧
      (wFlood.update 1 0).capacity * 0.8 < (wFlood.update 1 0).currentLoad) ∧
    ((wFlood.update 1 0).toDict.status = "NORMAL" ↔
      ¬ 0.05 < (wFlood.update 1 0).packetLoss ∧
      ¬ (wFlood.update 1 0).capacity * 0.8 < (wFlood.update 1 0).currentLoad) :=
  packetLoss_and_status_spec wFlood 1 0 (by norm_num [wFlood, Link.init])

/-! ### C5 — entropy formula and range -/

/-- Sums of rational lists grow along sublists of non-negative lists. -/
lemma sublist_sum_le {l m : List ℚ} (h : l.Sublist m) (hm : ∀ x ∈ m, 0 ≤ x) :
    l.sum ≤ m.sum := by
  induction h with
  | slnil => simp
  | cons a h ih =>
    simp only [List.sum_cons]
    have hrest := ih (fun x hx => hm x (List.mem_cons_of_mem a hx))
    have ha := hm a (List.mem_cons_self a _)
    linarith
  | cons₂ a h ih =>
    simp only [List.sum_cons]
    have hrest := ih (fun x hx => hm x (List.mem_cons_of_mem a hx))
    linarith

/-- Each per-type volume is non-negative when all offered amounts are. -/
lemma typeVol_nonneg (flows : List Flow) (ty : TrafficType)
    (h : ∀ t ∈ flows, 0 ≤ t.amount) : 0 ≤ typeVol flows ty := by
  apply List.sum_nonneg
  intro x hx
  obtain ⟨t, ht, rfl⟩ := List.mem_map.mp hx
  exact h t (List.mem_of_mem_filter ht)

/-- Each per-type volume is at most the total offered load. -/
lemma typeVol_le_total (flows : List Flow) (ty : TrafficType)
    (h : ∀ t ∈ flows, 0 ≤ t.amount) :
    typeVol flows ty ≤ totalLoadOf flows := by
  apply sublist_sum_le (List.Sublist.map Flow.amount (List.filter_sublist flows))
  intro x hx
  obtain ⟨t, ht, rfl⟩ := List.mem_map.mp hx
  exact h t ht

/-- The normalized Shannon entropy always lies in `[0, 1]` when the
offered amounts are non-negative. -/
lemma entropyCalc_mem (flows : List Flow) (bufferOcc : ℚ)
    (hamt : ∀ t ∈ flows, 0 ≤ t.amount) :
    0 ≤ entropyCalc flows (totalLoadOf flows) bufferOcc ∧
    entropyCalc flows (totalLoadOf flows) bufferOcc ≤ 1 := by
  rw [entropyCalc]
  by_cases h0 : 0 < totalLoadOf flows
  · simp only [if_pos h0]
    have hsum_nonneg : (0 : ℝ) ≤
        ((presentTypes flows).map (fun ty =>
          if 0 < typeVol flows ty / totalLoadOf flows then
            -(((typeVol flows ty / totalLoadOf flows : ℚ) : ℝ) *
              Real.logb 2 ((typeVol flows ty / totalLoadOf flows : ℚ) : ℝ))
          else 0)).sum := by
      apply List.sum_nonneg
      intro x hx
      obtain ⟨ty, -, rfl⟩ := List.mem_map.mp hx
      split_ifs with hp

      · have hple : typeVol flows ty / totalLoadOf flows ≤ 1 :=
          (div_le_one h0).mpr (typeVol_le_total flows ty hamt)
        have h1 : (0 : ℝ) < ((typeVol flows ty / totalLoadOf flows : ℚ) : ℝ) := by
          exact_mod_cast hp
        have h2 : ((typeVol flows ty / totalLoadOf flows : ℚ) : ℝ) ≤ 1 := by
          exact_mod_cast hple
        have hlog : Real.logb 2 ((typeVol flows ty / totalLoadOf flows : ℚ) : ℝ) ≤ 0 :=
          Real.logb_nonpos one_lt_two (le_of_lt h1) h2
        have := mul_nonneg (le_of_lt h1) (neg_nonneg.mpr hlog)
        calc (0 : ℝ) ≤ ((typeVol flows ty / totalLoadOf flows : ℚ) : ℝ) *
              -(Real.logb 2 ((typeVol flows ty / totalLoadOf flows : ℚ) : ℝ)) := this
          _ = -(((typeVol flows ty / totalLoadOf flows : ℚ) : ℝ) *
              Real.logb 2 ((typeVol flows ty / totalLoadOf flows : ℚ) : ℝ)) := by ring
      · exact le_refl 0
    by_cases hn : 1 < (presentTypes flows).length
    · simp only [if_pos hn]
      have hmax : (0 : ℝ) < Real.logb 2 ((presentTypes flows).length : ℝ) :=
        Real.logb_pos one_lt_two (by exact_mod_cast hn)
      exact ⟨le_min (by norm_num) (div_nonneg hsum_nonneg (le_of_lt hmax)),
        min_le_left _ _⟩
    · simp only [if_neg hn]
      split_ifs <;> norm_num
  · simp only [if_neg h0]
    norm_num

/-- Entropy-related projections of an effective `Link.update`. -/
lemma update_entropy {l : Link} {now r : ℚ} (h : ¬ now - l.lastUpdateTime ≤ 0) :
    (l.update now r).entropy =
      entropyCalc l.activeTraffic (totalLoadOf l.activeTraffic) l.bufferOccCalc ∧
    (l.update now r).bufferOccupancy = l.bufferOccCalc := by
  rw [Link.update]
  simp [h]

/-- C5: after every effective `Link.update` (with non-negative offered
rates, as the traffic generator produces), the entropy equals 1 at zero
total load; equals `min 1 (H / log2 numClasses)` when more than one
class is present, with `H` the Shannon entropy of the volume shares;
equals 0 for exactly one class unless `bufferOccupancy < 0.1`, in which
case 1; and consequently always lies in `[0, 1]`. -/
theorem entropy_update_spec (l : Link) (now r : ℚ)
    (hdt : ¬ now - l.lastUpdateTime ≤ 0)
    (hamt : ∀ t ∈ l.activeTraffic, 0 ≤ t.amount) :
    (totalLoadOf l.activeTraffic = 0 → (l.update now r).entropy = 1) ∧
    (0 < totalLoadOf l.activeTraffic → 1 < (presentTypes l.activeTraffic).length →
      (l.update now r).entropy =
        min 1 (((presentTypes l.activeTraffic).map (fun ty =>
            if 0 < typeVol l.activeTraffic ty / totalLoadOf l.activeTraffic then
              -(((typeVol l.activeTraffic ty / totalLoadOf l.activeTraffic : ℚ) : ℝ) *
                Real.logb 2 ((typeVol l.activeTraffic ty / totalLoadOf l.activeTraffic : ℚ) : ℝ))
            else 0)).sum /
          Real.logb 2 (((presentTypes l.activeTraffic).length : ℕ) : ℝ))) ∧
    (0 < totalLoadOf l.activeTraffic → (presentTypes l.activeTraffic).length = 1 →
      (l.update now r).entropy =
        if (l.update now r).bufferOccupancy < 0.1 then 1 else 0) ∧
    0 ≤ (l.update now r).entropy ∧ (l.update now r).entropy ≤ 1 := by
  obtain ⟨he, hb⟩ := @update_entropy l now r hdt
  refine ⟨?_, ?_, ?_, ?_, ?_⟩
  · intro h0
    rw [he, entropyCalc]
    rw [if_neg (by rw [h0]; norm_num)]
  · intro hpos hn
    rw [he, entropyCalc]
    simp only [if_pos hpos, if_pos hn]
  · intro hpos hn
    rw [he, entropyCalc, hb]
    have hn' : ¬ 1 < (presentTypes l.activeTraffic).length := by omega
    simp only [if_pos hpos, if_neg hn']
  · rw [he]
    exact (entropyCalc_mem l.activeTraffic l.bufferOccCalc hamt).1
  · rw [he]
    exact (entropyCalc_mem l.activeTraffic l.bufferOccCalc hamt).2

/-- Concrete two-class link for C5: VOIP 5 and GUEST 5 on capacity 1000. -/
def wEnt : Link :=
  { Link.init "Server Room" "Radiology" 1000 2 0 with
    activeTraffic := [⟨.VOIP, 5⟩, ⟨.GUEST, 5⟩] }

/-- Witness for C5 on `wEnt`. -/
theorem entropy_update_spec_witness :
    (totalLoadOf wEnt.activeTraffic = 0 → (wEnt.update 1 0).entropy = 1) ∧
    (0 < totalLoadOf wEnt.activeTraffic → 1 < (presentTypes wEnt.activeTraffic).length →
      (wEnt.update 1 0).entropy =
        min 1 (((presentTypes wEnt.activeTraffic).map (fun ty =>
            if 0 < typeVol wEnt.activeTraffic ty / totalLoadOf wEnt.activeTraffic then
              -(((typeVol wEnt.activeTraffic ty / totalLoadOf wEnt.activeTraffic : ℚ) : ℝ) *
                Real.logb 2 ((typeVol wEnt.activeTraffic ty / totalLoadOf wEnt.activeTraffic : ℚ) : ℝ))
            else 0)).sum /
          Real.logb 2 (((presentTypes wEnt.activeTraffic).length : ℕ) : ℝ))) ∧
    (0 < totalLoadOf wEnt.activeTraffic → (presentTypes wEnt.activeTraffic).length = 1 →
      (wEnt.update 1 0).entropy =
        if (wEnt.update 1 0).bufferOccupancy < 0.1 then 1 else 0) ∧
    0 ≤ (wEnt.update 1 0).entropy ∧ (wEnt.update 1 0).entropy ≤ 1 :=
  entropy_update_spec wEnt 1 0 (by norm_num [wEnt, Link.init])
    (by
      intro t ht
      rw [show wEnt.activeTraffic =
        [(⟨TrafficType.VOIP, 5⟩ : Flow), ⟨TrafficType.GUEST, 5⟩] from rfl] at ht
      simp only [List.mem_cons, List.mem_singleton, List.not_mem_nil, or_false] at ht
      rcases ht with rfl | rfl <;> norm_num)

/-! ### C6 — z-score anomaly alerts

The code guards the z-score block with `loadHistory.length > 10` while
the claim says "≥ 10 samples".  The two are behaviorally equivalent: the
population z-score of a sample among `n` samples is at most `√(n−1)`,
which is exactly 3 at `n = 10`, so the condition `zScore > 3.0` is
unsatisfiable with exactly 10 samples.  The lemmas below prove that
bound (a list form of the Cauchy–Schwarz inequality) and then the
claimed iff. -/

/-- Cauchy–Schwarz for list sums: `(Σ x)² ≤ n · Σ x²`. -/
lemma list_sq_sum_le (l : List ℚ) :
    l.sum ^ 2 ≤ (l.length : ℚ) * (l.map (fun x => x ^ 2)).sum := by
  induction l with
  | nil => simp
  | cons a t ih =>
    simp only [List.sum_cons, List.map_cons, List.length_cons]
    have hq : (0 : ℚ) ≤ (t.map (fun x => x ^ 2)).sum := by
      apply List.sum_nonneg
      intro x hx
      obtain ⟨y, -, rfl⟩ := List.mem_map.mp hx
      positivity
    have hlen : (0 : ℚ) ≤ (t.length : ℚ) := by positivity
    push_cast
    have h1 : 0 ≤ ((t.length : ℚ) + 1) *
        ((t.length : ℚ) * (t.map (fun x => x ^ 2)).sum - t.sum ^ 2) :=
      mul_nonneg (by linarith) (by linarith)
    have h2 : 0 ≤ ((t.length : ℚ) * a - t.sum) ^ 2 := sq_nonneg _
    have key : (t.length : ℚ) *
        (((t.length : ℚ) + 1) * (a ^ 2 + (t.map (fun x => x ^ 2)).sum) - (a + t.sum) ^ 2) =
        ((t.length : ℚ) + 1) *
          ((t.length : ℚ) * (t.map (fun x => x ^ 2)).sum - t.sum ^ 2) +
          ((t.length : ℚ) * a - t.sum) ^ 2 := by ring
    rcases eq_or_lt_of_le hlen with h0 | hpos
    · have ht0 : t.length = 0 := by exact_mod_cast h0.symm
      rw [List.length_eq_zero] at ht0
      subst ht0
      simp only [List.length_nil, List.sum_nil, List.map_nil, Nat.cast_zero]
      nlinarith []
    · nlinarith [h1, h2, key, hpos]

/-- `Σ (xᵢ − c) = Σ xᵢ − n·c`. -/
lemma sum_map_sub_const (h : List ℚ) (c : ℚ) :
    (h.map (fun b => b - c)).sum = h.sum - h.length * c := by
  induction h with
  | nil => simp
  | cons a t ih =>
    simp only [List.map_cons, List.sum_cons, List.length_cons, ih]
    push_cast
    ring

/-- Any sample's squared deviation from the mean is at most `(n−1)`
times the summed squared deviations divided by ... stated in cleared
form: `n·(x − μ)² ≤ (n−1)·Σ(b − μ)²`. -/
lemma dev_sq_le_of_mem (h : List ℚ) (x : ℚ) (hx : x ∈ h) :
    (h.length : ℚ) * (x - histAvg h) ^ 2 ≤
      ((h.length : ℚ) - 1) * (h.map (fun b => (b - histAvg h) ^ 2)).sum := by
  obtain ⟨pre, post, rfl⟩ := List.append_of_mem hx
  set μ := histAvg (pre ++ x :: post) with hμdef
  have hlen : ((pre ++ x :: post).length : ℚ) =
      (pre.length : ℚ) + (post.length : ℚ) + 1 := by
    push_cast [List.length_append, List.length_cons]
    ring
  have hne : ((pre ++ x :: post).length : ℚ) ≠ 0 := by
    rw [hlen]
    positivity
  have hdev0 : ((pre ++ x :: post).map (fun b => b - μ)).sum = 0 := by
    rw [sum_map_sub_const, hμdef, histAvg]
    field_simp
  have hsplit : ((pre ++ x :: post).map (fun b => b - μ)).sum =
      (pre.map (fun b => b - μ)).sum + ((x - μ) + (post.map (fun b => b - μ)).sum) := by
    simp [List.map_append]
  have hs : ((pre ++ post).map (fun b => b - μ)).sum = -(x - μ) := by
    have : (pre.map (fun b => b - μ)).sum + ((x - μ) +
        (post.map (fun b => b - μ)).sum) = 0 := by
      rw [← hsplit]
      exact hdev0
    simp only [List.map_append, List.sum_append]
    linarith
  have hcs := list_sq_sum_le ((pre ++ post).map (fun b => b - μ))
  rw [hs, List.map_map, List.length_map] at hcs
  have hcomp : ((fun y => y ^ 2) ∘ fun b => b - μ) = fun b => (b - μ) ^ 2 := rfl
  rw [hcomp] at hcs
  have hQsplit : ((pre ++ x :: post).map (fun b => (b - μ) ^ 2)).sum =
      ((pre ++ post).map (fun b => (b - μ) ^ 2)).sum + (x - μ) ^ 2 := by
    simp [List.map_append]
    ring
  have hm : ((pre ++ post).length : ℚ) = (pre.length : ℚ) + (post.length : ℚ) := by
    push_cast [List.length_append]
    ring
  have hneg : (-(x - μ)) ^ 2 = (x - μ) ^ 2 := by ring
  rw [hneg, hm] at hcs
  rw [hlen, hQsplit]
  nlinarith [hcs]

/-- With exactly 10 history samples (and `currentLoad` one of them, as
`Link.update` guarantees), a positive variance and a z-score above 3 are
jointly impossible. -/
lemma zscore_impossible_at_ten (l : Link)
    (hmem : l.currentLoad ∈ l.loadHistory) (hlen : l.loadHistory.length = 10)
    (hz : 3 < zScoreOf l) : False := by
  have hdev := dev_sq_le_of_mem l.loadHistory l.currentLoad hmem
  obtain ⟨hv, ha, hsq⟩ := (zScore_gt3_iff l).mp hz
  rw [histVariance, hlen] at hsq
  rw [hlen] at hdev
  push_cast at hdev hsq
  nlinarith [hdev, hsq]

/-- A raised z-score alert implies the per-tick WARNING budget was not
yet exhausted. -/
lemma zscoreCheck_count_lt {mode : String} {cnt : ℕ} {l : Link}
    (h : zscoreCheck mode cnt l = true) : cnt < 2 := by
  rw [zscoreCheck] at h
  split_ifs at h with h1 h2 h3
  exact h3.2

/-- Characterization of one z-score check, using the claim's `≥ 10`
threshold (equivalent to the code's `> 10` by
`zscore_impossible_at_ten`). -/
lemma zscoreCheck_iff (mode : String) (cnt : ℕ) (l : Link)
    (hmem : l.currentLoad ∈ l.loadHistory) :
    zscoreCheck mode cnt l = true ↔
      (mode ≠ "NORMAL" ∧ 10 ≤ l.loadHistory.length ∧
       0 < stdDevOf l.loadHistory ∧ 3 < zScoreOf l ∧ cnt < 2) := by
  rw [zscoreCheck]
  constructor
  · intro h
    split_ifs at h with h1 h2 h3
    exact ⟨h1.1, by omega, h2, h3.1, h3.2⟩
  · rintro ⟨hm, hlen, hsd, hz, hcnt⟩
    have hlen' : 10 < l.loadHistory.length := by
      rcases Nat.lt_or_ge 10 l.loadHistory.length with h | h
      · exact h
      · exact absurd (zscore_impossible_at_ten l hmem (le_antisymm h hlen) hz) id
    rw [if_pos ⟨hm, hlen'⟩, if_pos hsd, if_pos ⟨hz, hcnt⟩]

/-- Fold invariant for the per-tick sweep: the raised-alert list stays
in lockstep with `warnAlertCount`, which never exceeds 2. -/
lemma zscorePhase_inv (mode : String) (links : List Link) :
    ∀ acc : ℕ × List Link, acc.2.length = acc.1 → acc.1 ≤ 2 →
      (links.foldl
        (fun acc link =>
          if zscoreCheck mode acc.1 link then (acc.1 + 1, acc.2 ++ [link]) else acc)
        acc).2.length =
        (links.foldl
          (fun acc link =>
            if zscoreCheck mode acc.1 link then (acc.1 + 1, acc.2 ++ [link]) else acc)
          acc).1 ∧
      (links.foldl
        (fun acc link =>
          if zscoreCheck mode acc.1 link then (acc.1 + 1, acc.2 ++ [link]) else acc)
        acc).1 ≤ 2 := by
  induction links with
  | nil => exact fun acc h1 h2 => ⟨h1, h2⟩
  | cons x xs ih =>
    intro acc h1 h2
    simp only [List.foldl_cons]
    by_cases hc : zscoreCheck mode acc.1 x = true
    · rw [if_pos hc]
      have hlt := zscoreCheck_count_lt hc
      exact ih _ (by simp [h1]) (by omega)
    · rw [if_neg hc]
      exact ih acc h1 h2

/-- After any effective `Link.update`, the link's `currentLoad` is one
of its history samples (it is pushed onto `loadHistory` in the same
call), justifying the membership hypothesis of the C6 theorem. -/
lemma update_currentLoad_mem_history {l : Link} {now r : ℚ}
    (h : ¬ now - l.lastUpdateTime ≤ 0) :
    (l.update now r).currentLoad ∈ (l.update now r).loadHistory := by
  have h1 : (l.update now r).currentLoad = totalLoadOf l.activeTraffic := by
    rw [Link.update]
    simp [h]
  have h2 : (l.update now r).loadHistory =
      pushHistory l.loadHistory (totalLoadOf l.activeTraffic) := by
    rw [Link.update]
    simp [h]
  rw [h1, h2, pushHistory]
  split_ifs with hlen
  · rcases hh : l.loadHistory with - | ⟨a, t⟩
    · rw [hh] at hlen
      simp at hlen
    · simp
  · simp

/-- C6: during a tick, for any link whose `currentLoad` is one of its
history samples (true after `Link.update`), the z-score WARNING is
raised exactly when the mode is not NORMAL, the link has at least 10
history samples, the population standard deviation is positive, the
z-score exceeds 3.0, and fewer than 2 such WARNINGs were already raised
this tick; and the per-tick sweep raises at most 2 of them. -/
theorem zscore_alert_spec (mode : String) (cnt : ℕ) (l : Link) (links : List Link)
    (hmem : l.currentLoad ∈ l.loadHistory) :
    (zscoreCheck mode cnt l = true ↔
      (mode ≠ "NORMAL" ∧ 10 ≤ l.loadHistory.length ∧
       0 < stdDevOf l.loadHistory ∧ 3 < zScoreOf l ∧ cnt < 2)) ∧
    (zscorePhase mode links).2.length ≤ 2 := by
  refine ⟨zscoreCheck_iff mode cnt l hmem, ?_⟩
  have := zscorePhase_inv mode links (0, []) rfl (by omega)
  rw [zscorePhase]
  omega

/-- Concrete link for the C6 witness: a single history sample equal to
`currentLoad`. -/
def wZ : Link :=
  { Link.init "Lab" "Server Room" 600 3 0 with
    loadHistory := [0], currentLoad := 0 }

/-- Witness for C6 on `wZ` with an empty link sweep. -/
theorem zscore_alert_spec_witness :
    (zscoreCheck "DDOS" 0 wZ = true ↔
      (("DDOS" : String) ≠ "NORMAL" ∧ 10 ≤ wZ.loadHistory.length ∧
       0 < stdDevOf wZ.loadHistory ∧ 3 < zScoreOf wZ ∧ 0 < 2)) ∧
    (zscorePhase "DDOS" []).2.length ≤ 2 :=
  zscore_alert_spec "DDOS" 0 wZ [] (by simp [wZ])

/-! ### C9 — `getState` is read-only and idempotent -/

/-- C9: `getState` mutates no simulation state (its state-passing form
returns the state unchanged) and two consecutive calls with no
intervening tick return identical snapshots. -/
theorem getState_readonly_idempotent (s : NetworkSimulation) :
    (NetworkSimulation.getStateS s).2 = s ∧
    (NetworkSimulation.getStateS (NetworkSimulation.getStateS s).2).1 =
      (NetworkSimulation.getStateS s).1 :=
  ⟨rfl, rfl⟩

/-! ### C7 — reset -/

/-- An alert sitting in the simulation log before reset. -/
def simAlert : Alert :=
  { time := "12:00:00", msg := "Z-Score 3.2 | lateral movement", level := "WARNING" }

/-- A simulation that has raised one alert. -/
def simWithAlert : NetworkSimulation :=
  { NetworkSimulation.init 0 with alerts := [simAlert] }

/-- C7 evaluation: the `reset` control action does reset the traffic
mode, the run flag and every link's counters, but it leaves the
simulation's alert log untouched (the React component only clears its
own accumulated copy) and `setupNetworkFloors` re-appends every
adjacency entry instead of rebuilding the graph, duplicating each
neighbor list. -/
theorem reset_keeps_alerts_and_duplicates_graph :
    (simWithAlert.reset 0).alerts = [simAlert] ∧
    [simAlert] ≠ ([] : List Alert) ∧
    (simWithAlert.reset 0).trafficMode = "NORMAL" ∧
    (simWithAlert.reset 0).running = false ∧
    ((simWithAlert.reset 0).links.lookup "Server Room-ICU-A").map Link.goldServed =
      some 0 ∧
    (NetworkSimulation.init 0).graph.lookup "Server Room" =
      some ["ICU-A", "ICU-B", "Radiology", "Admin", "Lab"] ∧
    ((NetworkSimulation.init 0).reset 0).graph.lookup "Server Room" =
      some ["ICU-A", "ICU-B", "Radiology", "Admin", "Lab",
            "ICU-A", "ICU-B", "Radiology", "Admin", "Lab"] := by
  refine ⟨rfl, by simp [simAlert], rfl, rfl, rfl, rfl, rfl⟩

end CNEL
